import Mathlib

/-!
Verification of the pidgeon serial gateway core against its design notes.

The development shallowly embeds the Rust sources:
* src/server.rs : length-prefixed framing (read_bytes / write_bytes), the
  session loop (handle_conn) and the accept loop (run).
* src/crow.rs   : the device line protocol (write_all, write_delimited,
  write_script, read_line).
* src/repl.rs   : the REPL write path.

Byte streams are lists of natural numbers (one per byte); a finite list
models the bytes delivered before the peer closes the stream.  A Rust
panic is modelled by an explicit outcome constructor (crash / Option.none),
a fallible read by an error constructor.
-/

set_option maxRecDepth 8192

namespace Pidgeon

/-! ## Framing layer, src/server.rs lines 29-59 -/

/-- BUFSIZE from server.rs line 29: the fixed backing buffer, 512 * 512 bytes. -/
def BUFSIZE : Nat := 512 * 512

/-- Big-endian 4-byte encoding of a u32 value, as written by write_u32. -/
def u32BE (n : Nat) : List Nat :=
  [n / 16777216 % 256, n / 65536 % 256, n / 256 % 256, n % 256]

/-- Reading a u32 big-endian prefix from a byte stream, as read_u32 does;
fails when fewer than four bytes remain before the stream closes. -/
def read_u32 : List Nat → Option (Nat × List Nat)
  | b0 :: b1 :: b2 :: b3 :: rest =>
      some (((b0 * 256 + b1) * 256 + b2) * 256 + b3, rest)
  | _ => none

/-- Outcome of Server::read_bytes: a payload plus the remaining stream, an
I/O error (stream closed mid-frame), or a crash — the Rust code slices
the fixed array as backing_buf[0..len], which panics when len exceeds
BUFSIZE. -/
inductive ReadBytes where
  | ok (payload : List Nat) (rest : List Nat)
  | ioErr
  | crash
  deriving DecidableEq

/-- Body of Server::read_bytes after the length prefix has been read
(server.rs lines 41-46): slice backing_buf[0..len] (a panic when
BUFSIZE < len), then read_exact that many bytes. -/
def read_bytes_core (len : Nat) (rest : List Nat) : ReadBytes :=
  if BUFSIZE < len then .crash
  else if rest.length < len then .ioErr
  else .ok (rest.take len) (rest.drop len)

/-- Server::read_bytes, server.rs lines 37-47: read a 4-byte big-endian
length prefix, then exactly that many payload bytes into the fixed
buffer. -/
def read_bytes (stream : List Nat) : ReadBytes :=
  match read_u32 stream with
  | none => .ioErr
  | some (len, rest) => read_bytes_core len rest

/-- Server::write_bytes, server.rs lines 49-59: write the length as a
u32 big-endian prefix (the Rust cast len as u32 truncates modulo 2^32)
followed by the payload bytes. -/
def write_bytes (chunk : List Nat) : List Nat :=
  u32BE (chunk.length % 4294967296) ++ chunk

/-! ## Device line protocol, src/crow.rs lines 109-181 -/

/-- write_all, crow.rs lines 109-118: the payload followed by a newline
(byte 10). -/
def write_all (chunk : List Nat) : List Nat := chunk ++ [10]

/-- write_delimited, crow.rs lines 134-146: three backticks (byte 96),
the payload, three backticks, then a newline. -/
def write_delimited (chunk : List Nat) : List Nat :=
  [96, 96, 96] ++ chunk ++ [96, 96, 96] ++ [10]

/-- write_script, crow.rs lines 120-132.  The logging statement slices
the script as script[..256] before any write, which panics (result
none) whenever the script is shorter than 256 bytes; otherwise the
function emits the marker bytes 94 94 115 for the upload marker, the
script, 94 94 101 for the execute marker, then a newline. -/
def write_script (script : List Nat) : Option (List Nat) :=
  if script.length < 256 then
    none
  else
    some ([94, 94, 115] ++ script ++ [94, 94, 101] ++ [10])

/-- read_line, crow.rs lines 148-162: accumulate bytes from the stream up
to and including the first newline; end of stream yields whatever was
accumulated (the underlying read_line returns Ok at end of stream, so no
error case arises from a closing stream).  Returns the accumulated bytes
and the unread remainder of the stream. -/
def read_line : List Nat → List Nat × List Nat
  | [] => ([], [])
  | b :: rest =>
      if b = 10 then
        ([10], rest)
      else
        let p := read_line rest
        (b :: p.1, p.2)

/-! ## Write-path thresholds -/

/-- write_chunk, server.rs lines 100-106: contents of length at least 64
go through write_delimited, shorter contents through write_all. -/
def write_chunk (chunk : List Nat) : List Nat :=
  if 64 ≤ chunk.length then write_delimited chunk else write_all chunk

/-- The per-line write of the REPL loop, repl.rs lines 16-20: strictly
more than 64 bytes go through write_delimited, otherwise write_all. -/
def repl_write (line : List Nat) : List Nat :=
  if 64 < line.length then write_delimited line else write_all line

/-! ## Session protocol messages, src/server.rs lines 12-27 -/

/-- The tagged message vocabulary of the gateway wire protocol. -/
inductive Message where
  | Success (request_id : Nat) (contents : String)
  | Check
  | Start
  | Affirm
  | Failure (request_id : Option Nat) (contents : String)
  deriving DecidableEq

/-- Outcome of the bounded device read read_crow_response, server.rs
lines 83-87: a line arrived within the 200 ms bound, the bound elapsed
with nothing, or the read itself failed. -/
inductive ReadOutcome where
  | line (s : String)
  | timeout
  | ioErr (e : String)
  deriving DecidableEq

/-- Device behaviour for one forwarded request: whether the device write
fails (and with what error text), and what the bounded read yields. -/
structure DevBehavior where
  writeErr : Option String
  readRes : ReadOutcome
  deriving DecidableEq

/-- The Success branch of handle_conn, server.rs lines 94-131: on a
write error the server replies Failure with the request id — and then
still performs the bounded device read (the code has no early return),
which may produce a further reply for the same request. -/
def handle_success (id : Nat) (dev : DevBehavior) : List Message :=
  (match dev.writeErr with
   | some e => [.Failure (some id) e]
   | none => []) ++
  (match dev.readRes with
   | .line s => [.Success id s]
   | .ioErr e => [.Failure (some id) e]
   | .timeout => [])

/-- handle_conn, server.rs lines 89-144, as a function from the decoded
session frames (paired with the device behaviour consumed on Success
frames) to the list of messages sent back to the client.  An exhausted
list models the client closing the connection (read_message errors, the
loop ends); a frame that fails to decode makes read_message return the
serde error through the question-mark operator, ending the session with
nothing sent. -/
def handle_conn : List (Except String Message × DevBehavior) → List Message
  | [] => []
  | (.error _, _) :: _ => []
  | (.ok m, dev) :: rest =>
      match m with
      | .Success id _ => handle_success id dev ++ handle_conn rest
      | .Failure _ _ => handle_conn rest
      | _ => .Failure none "don\x27t understand" :: handle_conn rest

/-- One accepted connection: the decode result of its first frame, and
the session frames that follow when the connection is admitted. -/
structure Conn where
  first : Except String Message
  rest : List (Except String Message × DevBehavior)

/-- The accept loop of run, server.rs lines 154-216, over a finite list
of connections.  Returns the trace of sent messages tagged with the
index of the connection they answer, and some error text when the loop
itself dies (the question-mark on the first-frame read / decode).  The
busy parameter models the AtomicBool of line 152: the source only ever
loads it and never stores it, so it is threaded unchanged through every
branch.  An admitted Start spawns handle_conn and immediately awaits
the join handle (lines 185-191), so the session runs to completion
before the next connection is accepted; a session that ends in an error
panics inside the spawned task, which the discarded join result
swallows, and the loop continues. -/
def runAux (busy : Bool) (i : Nat) : List Conn → List (Nat × Message) × Option String
  | [] => ([], none)
  | c :: cs =>
      match c.first with
      | .error e => ([], some e)
      | .ok m =>
          match m with
          | .Start =>
              if busy then
                let t := runAux busy (i + 1) cs
                ((i, .Failure none "BUSY") :: t.1, t.2)
              else
                let t := runAux busy (i + 1) cs
                ((handle_conn c.rest).map (fun msg => (i, msg)) ++ t.1, t.2)
          | .Check =>
              let t := runAux busy (i + 1) cs
              ((i, if busy then .Failure none "BUSY" else .Affirm) :: t.1, t.2)
          | _ =>
              let t := runAux busy (i + 1) cs
              ((i, .Failure none "don\x27t understand") :: t.1, t.2)

/-- run, server.rs line 146: the busy flag is created false at server
start and the accept loop starts at the first connection. -/
def run (conns : List Conn) : List (Nat × Message) × Option String :=
  runAux false 0 conns

/-! ## Framing lemmas -/

/-- Reading back a 4-byte big-endian prefix recovers the encoded value. -/
theorem read_u32_u32BE (n : Nat) (rest : List Nat) (h : n < 4294967296) :
    read_u32 (u32BE n ++ rest) = some (n, rest) := by
  simp only [u32BE, List.cons_append, List.nil_append, read_u32, Option.some.injEq,
    Prod.mk.injEq, and_true]
  omega

/-- Round trip of the framing layer for any payload that fits the fixed
buffer, with any trailing stream content left untouched. -/
theorem roundtrip_le (p rest : List Nat) (h : p.length ≤ BUFSIZE) :
    read_bytes (write_bytes p ++ rest) = .ok p rest := by
  have hlt : p.length < 4294967296 := by
    simp only [BUFSIZE] at h
    omega
  have h1 : write_bytes p ++ rest = u32BE p.length ++ (p ++ rest) := by
    simp [write_bytes, Nat.mod_eq_of_lt hlt, List.append_assoc]
  rw [h1]
  simp only [read_bytes, read_u32_u32BE p.length (p ++ rest) hlt, read_bytes_core]
  rw [if_neg (by omega), if_neg (by simp [List.length_append])]
  simp

/-! ## Trace structure of the accept loop -/

/-- One step of the accept loop: a connection either kills the loop with
an empty trace (first-frame decode error), or contributes a block of
messages all tagged with its own index, followed by the trace of the
remaining connections. -/
theorem runAux_cons_decomp (busy : Bool) (i : Nat) (c : Conn) (cs : List Conn) :
    (runAux busy i (c :: cs)).1 = [] ∨
    ∃ pre : List Message,
      (runAux busy i (c :: cs)).1 =
        pre.map (fun m => (i, m)) ++ (runAux busy (i + 1) cs).1 := by
  obtain ⟨first, rest⟩ := c
  cases first with
  | error e => exact Or.inl rfl
  | ok msg =>
      cases msg with
      | Start =>
          cases busy with
          | true => exact Or.inr ⟨[.Failure none "BUSY"], rfl⟩
          | false => exact Or.inr ⟨handle_conn rest, rfl⟩
      | Check =>
          cases busy with
          | true => exact Or.inr ⟨[.Failure none "BUSY"], rfl⟩
          | false => exact Or.inr ⟨[.Affirm], rfl⟩
      | Affirm => exact Or.inr ⟨[.Failure none "don\x27t understand"], rfl⟩
      | Success id ctr => exact Or.inr ⟨[.Failure none "don\x27t understand"], rfl⟩
      | Failure a b => exact Or.inr ⟨[.Failure none "don\x27t understand"], rfl⟩

/-- Every message in the trace of the accept loop started at index i is
tagged with a connection index at least i. -/
theorem runAux_tag_le (busy : Bool) (conns : List Conn) :
    ∀ i j m, (j, m) ∈ (runAux busy i conns).1 → i ≤ j := by
  induction conns with
  | nil => intro i j m h; simp [runAux] at h
  | cons c cs ih =>
      intro i j m h
      rcases runAux_cons_decomp busy i c cs with hd | ⟨pre, hd⟩
      · rw [hd] at h
        simp at h
      · rw [hd] at h
        rcases List.mem_append.mp h with h1 | h2
        · obtain ⟨msg', _, heq⟩ := List.mem_map.mp h1
          have : i = j := congrArg Prod.fst heq
          omega
        · have := ih (i + 1) j m h2
          omega

/-- The connection tags along the trace of the accept loop never
decrease: all answers to one connection are emitted before any answer
to a later connection. -/
theorem runAux_tags_pairwise (busy : Bool) (conns : List Conn) :
    ∀ i, ((runAux busy i conns).1.map Prod.fst).Pairwise (· ≤ ·) := by
  induction conns with
  | nil => intro i; simp [runAux]
  | cons c cs ih =>
      intro i
      rcases runAux_cons_decomp busy i c cs with hd | ⟨pre, hd⟩
      · simp [hd]
      · rw [hd, List.map_append, List.pairwise_append]
        refine ⟨?_, ih (i + 1), ?_⟩
        · rw [List.map_map, List.pairwise_map]
          clear hd
          induction pre with
          | nil => exact List.Pairwise.nil
          | cons a l ihp => exact List.Pairwise.cons (fun _ _ => le_refl i) ihp
        · intro a ha b hb
          obtain ⟨⟨a1, a2⟩, ha', rfl⟩ := List.mem_map.mp ha
          obtain ⟨msg', _, heq⟩ := List.mem_map.mp ha'
          obtain ⟨⟨b1, b2⟩, hb', rfl⟩ := List.mem_map.mp hb
          have h1 : i = a1 := congrArg Prod.fst heq
          have h2 := runAux_tag_le busy cs (i + 1) b1 b2 hb'
          simp only [Prod.fst] at h1 h2 ⊢
          omega

/-! ## Claims -/

/-- C1: evaluation of the accept loop at the failing input.  The busy
flag starts false and the source never stores into it, so a second
Start is never rejected with BUSY: here the first connection is a
Start whose session ends at once, and the second Start — which per the
claim should find busy true and receive Failure BUSY — is instead
fully admitted as a session (its Check frame is answered inside
handle_conn with the in-session Failure), and no BUSY message appears
anywhere in the trace. -/
theorem C1_busy_never_set :
    run [⟨.ok .Start, []⟩, ⟨.ok .Start, [(.ok .Check, ⟨none, .timeout⟩)]⟩] =
      ([(1, .Failure none "don\x27t understand")], none) := rfl

/-- C2 counterexample: a first frame whose payload fails to decode does
not produce a Failure reply — the serde error propagates through the
question-mark operator and the whole accept loop terminates with the
error, so a following well-formed Check connection is never answered. -/
theorem C2_counterexample :
    run [⟨.error "invalid JSON", []⟩, ⟨.ok .Check, []⟩] = ([], some "invalid JSON") := rfl

/-- C2 amended: a frame whose payload fails to decode is never answered
with a Failure message; when it is a connection's first frame the accept
loop terminates with the decode error, and when it occurs inside an
admitted session the session ends silently and the accept loop
continues with the remaining connections. -/
theorem C2_amended_decode_failure (i : Nat) (e : String) (cs : List Conn)
    (rest frames : List (Except String Message × DevBehavior)) (dev : DevBehavior) :
    runAux false i (⟨.error e, rest⟩ :: cs) = ([], some e) ∧
    handle_conn ((.error e, dev) :: frames) = [] ∧
    runAux false i (⟨.ok .Start, (.error e, dev) :: frames⟩ :: cs) =
      runAux false (i + 1) cs :=
  ⟨rfl, rfl, rfl⟩

/-- C3 counterexample: when the device write fails and a device line
still arrives within the read bound, the session sends two responses
for the same request — a Failure for the write error followed by a
Success carrying the line — refuting both the at-most-one-reply claim
and the claim that a failed write suppresses the device read. -/
theorem C3_counterexample :
    handle_conn [(.ok (.Success 5 "x"), ⟨some "boom", .line "ok"⟩)] =
      [.Failure (some 5) "boom", .Success 5 "ok"] := rfl

/-- C3 amended: on a write error the session replies Failure with the
request id and then still performs the bounded device read, which may
produce a second reply for the same request; when the write succeeds at
most one reply is sent — Success on a line, Failure on a read error,
and nothing at all when the bound elapses. -/
theorem C3_amended_at_most_two (id : Nat) (c : String) (dev : DevBehavior) :
    handle_conn [(.ok (.Success id c), dev)] =
      (match dev.writeErr with
       | some e => [Message.Failure (some id) e]
       | none => []) ++
      (match dev.readRes with
       | .line s => [Message.Success id s]
       | .ioErr e => [Message.Failure (some id) e]
       | .timeout => []) ∧
    (dev.writeErr = none → (handle_conn [(.ok (.Success id c), dev)]).length ≤ 1) ∧
    (dev.writeErr = none → dev.readRes = .timeout →
      handle_conn [(.ok (.Success id c), dev)] = []) := by
  obtain ⟨w, r⟩ := dev
  cases w <;> cases r <;> simp [handle_conn, handle_success]

/-- C3 witness: a request whose write succeeds and whose read bound
elapses receives no reply at all. -/
theorem C3_amended_witness :
    handle_conn [(.ok (.Success 7 "y"), ⟨none, .timeout⟩)] = [] :=
  (C3_amended_at_most_two 7 "y" ⟨none, .timeout⟩).2.2 rfl rfl

/-- C4 counterexample: a frame declaring a length of exactly BUFSIZE
(262144) is not rejected — the slice of the fixed buffer covers the
whole array, the payload is read normally and the frame succeeds,
refuting the claim that every declared length at least 262144 fails. -/
theorem C4_counterexample :
    read_bytes (write_bytes (List.replicate BUFSIZE 0)) =
      .ok (List.replicate BUFSIZE 0) [] := by
  have h := roundtrip_le (List.replicate BUFSIZE 0) [] (by simp)
  simpa using h

/-- C4 amended: a declared length strictly greater than BUFSIZE makes
the read crash (the slice backing_buf[0..len] of the fixed buffer
panics) before any payload byte is read, while allocation stays bounded
by the fixed buffer; a declared length of exactly BUFSIZE is accepted. -/
theorem C4_amended_oversized_crash (len : Nat) (rest : List Nat)
    (h1 : BUFSIZE < len) (h2 : len < 4294967296) :
    read_bytes (u32BE len ++ rest) = .crash := by
  simp [read_bytes, read_u32_u32BE len rest h2, read_bytes_core, h1]

/-- C4 witness: a frame declaring BUFSIZE + 1 bytes crashes the read. -/
theorem C4_amended_witness :
    BUFSIZE < BUFSIZE + 1 ∧ read_bytes (u32BE (BUFSIZE + 1) ++ []) = .crash :=
  ⟨Nat.lt_succ_self _,
   C4_amended_oversized_crash (BUFSIZE + 1) [] (Nat.lt_succ_self _) (by decide)⟩

/-- C5: evaluation at the failing input.  The empty script (any script
shorter than 256 bytes) makes write_script crash in its logging slice
before anything reaches the wire, so the claimed wire form is not
produced for every script; a 256-byte script does produce exactly the
upload marker, the script, the execute marker and a newline. -/
theorem C5_write_script_short_input :
    write_script [] = none ∧
    write_script (List.replicate 256 97) =
      some ([94, 94, 115] ++ List.replicate 256 97 ++ [94, 94, 101] ++ [10]) :=
  ⟨rfl, by
    unfold write_script
    rw [if_neg (by simp)]⟩

/-- C6 counterexample: reading the stream "hi" followed by a newline
returns the bytes including the newline terminator (the claim says the
terminator is stripped), and a stream that closes immediately yields an
empty successful read rather than a transport error. -/
theorem C6_counterexample :
    read_line [104, 105, 10] = ([104, 105, 10], []) ∧ read_line [] = ([], []) :=
  ⟨rfl, rfl⟩

/-- C6 amended: read_line accumulates bytes up to and including the
first newline and returns them with the terminator kept, not stripped;
when the stream closes before a newline arrives it returns the partial
(possibly empty) content as a success rather than a transport error. -/
theorem C6_amended_keeps_newline (line rest : List Nat) (h : 10 ∉ line) :
    read_line (line ++ 10 :: rest) = (line ++ [10], rest) ∧
    read_line line = (line, []) := by
  induction line with
  | nil => exact ⟨rfl, rfl⟩
  | cons b l ih =>
      have hb : ¬b = 10 := fun hb => h (hb ▸ List.mem_cons_self b l)
      have hl : 10 ∉ l := fun hl => h (List.mem_cons_of_mem b hl)
      obtain ⟨ih1, ih2⟩ := ih hl
      constructor
      · simp [read_line, hb, ih1]
      · simp [read_line, hb, ih2]

/-- C6 witness: the line "hi" arrives as the three bytes including the
newline, and a stream holding only "hi" before closing is returned
whole as a success. -/
theorem C6_amended_witness :
    read_line [104, 105, 10] = ([104, 105, 10], []) ∧
    read_line [104, 105] = ([104, 105], []) := by
  have h := C6_amended_keeps_newline [104, 105] [] (by decide)
  simpa using h

/-- C7 counterexample: a REPL line of exactly 64 bytes is written as a
plain line, not in the delimited backtick-fenced form the claim
requires for every payload of length at least 64. -/
theorem C7_counterexample :
    repl_write (List.replicate 64 97) = List.replicate 64 97 ++ [10] ∧
    repl_write (List.replicate 64 97) ≠
      [96, 96, 96] ++ List.replicate 64 97 ++ [96, 96, 96] ++ [10] := by
  decide

/-- C7 amended: a Success payload forwarded by the server is written in
the delimited form when its length is at least 64 and as a plain line
below 64, while a REPL line is written in the delimited form only when
its length is strictly greater than 64 and as a plain line otherwise —
a payload of exactly 64 bytes is fenced on the server path but plain on
the REPL path. -/
theorem C7_amended_thresholds (c l : List Nat) :
    (64 ≤ c.length → write_chunk c = [96, 96, 96] ++ c ++ [96, 96, 96] ++ [10]) ∧
    (c.length < 64 → write_chunk c = c ++ [10]) ∧
    (64 < l.length → repl_write l = [96, 96, 96] ++ l ++ [96, 96, 96] ++ [10]) ∧
    (l.length ≤ 64 → repl_write l = l ++ [10]) := by
  refine ⟨fun h => ?_, fun h => ?_, fun h => ?_, fun h => ?_⟩
  · unfold write_chunk
    rw [if_pos h]
    rfl
  · unfold write_chunk
    rw [if_neg (by omega)]
    rfl
  · unfold repl_write
    rw [if_pos h]
    rfl
  · unfold repl_write
    rw [if_neg (by omega)]
    rfl

/-- C7 witness: the same 64-byte payload is fenced by the server write
path and written plain by the REPL write path. -/
theorem C7_amended_witness :
    write_chunk (List.replicate 64 97) =
      [96, 96, 96] ++ List.replicate 64 97 ++ [96, 96, 96] ++ [10] ∧
    repl_write (List.replicate 64 97) = List.replicate 64 97 ++ [10] :=
  ⟨(C7_amended_thresholds (List.replicate 64 97) (List.replicate 64 97)).1 (by simp),
   (C7_amended_thresholds (List.replicate 64 97) (List.replicate 64 97)).2.2.2 (by simp)⟩

/-- C8: for every payload shorter than the fixed buffer, reading a frame
immediately after writing that payload as a frame reconstructs the
payload exactly, leaving nothing behind on the stream. -/
theorem C8_framing_roundtrip (p : List Nat) (h : p.length < BUFSIZE) :
    read_bytes (write_bytes p) = .ok p [] := by
  have h2 := roundtrip_le p [] (Nat.le_of_lt h)
  simpa using h2

/-- C8 witness: the round trip at the concrete payload 1, 2, 3. -/
theorem C8_framing_roundtrip_witness :
    ([1, 2, 3] : List Nat).length < BUFSIZE ∧
    read_bytes (write_bytes [1, 2, 3]) = .ok [1, 2, 3] [] :=
  ⟨by decide, C8_framing_roundtrip [1, 2, 3] (by decide)⟩

/-- C9: every script shorter than 256 bytes makes write_script crash in
the slice of its logging statement before any byte is written to the
device, so the upload only completes normally when the script holds at
least 256 bytes. -/
theorem C9_short_script_crashes (S : List Nat) (h : S.length < 256) :
    write_script S = none := by
  simp [write_script, h]

/-- C9 witness: the empty script crashes write_script. -/
theorem C9_short_script_crashes_witness :
    ([] : List Nat).length < 256 ∧ write_script [] = none :=
  ⟨by decide, C9_short_script_crashes [] (by decide)⟩

/-- C10: the accept loop awaits the admitted session task to completion,
so the trace of sent messages is grouped by connection in arrival
order — the connection tags along the trace never decrease and never
fall below the loop index — meaning no later connection is read or
answered, not even with a BUSY rejection, while a session is active. -/
theorem C10_sessions_serialized (busy : Bool) (i : Nat) (conns : List Conn) :
    ((runAux busy i conns).1.map Prod.fst).Pairwise (· ≤ ·) ∧
    ∀ j ∈ (runAux busy i conns).1.map Prod.fst, i ≤ j := by
  refine ⟨runAux_tags_pairwise busy conns i, ?_⟩
  intro j hj
  obtain ⟨⟨j', m⟩, hm, h⟩ := List.mem_map.mp hj
  exact h ▸ runAux_tag_le busy conns i j' m hm

/-- C10 witness: two consecutive Check connections are answered in
order, and the second answer indeed carries the later tag. -/
theorem C10_sessions_serialized_witness :
    ((runAux false 0 [⟨.ok .Check, []⟩, ⟨.ok .Check, []⟩]).1.map Prod.fst).Pairwise
      (· ≤ ·) ∧
    (0 : Nat) ≤ 1 :=
  ⟨(C10_sessions_serialized false 0 [⟨.ok .Check, []⟩, ⟨.ok .Check, []⟩]).1,
   (C10_sessions_serialized false 0 [⟨.ok .Check, []⟩, ⟨.ok .Check, []⟩]).2 1 (by decide)⟩

end Pidgeon
